import Mathlib

/-!
# Verification of the WoZChat conversational form engine

A shallow embedding, in Lean 4, of the rule-based interview engine of the
WoZChat repository:

* `backend/accident_report/rule_based/validator.py` — the answer
  validator/normalizer (`validate_answer`, `_normalize_text`, `_parse_choice`,
  `_parse_number`, `_parse_bool`, `_flexible_word_match`),
* `backend/accident_report/rule_based/bot_naive.py` — the interview engine
  (`FormWorkflow`: `validate_input` / `_validate_current_question`,
  `advance_to_next`, `handle_followup`, `handle_group_question`,
  `handle_repeat_group`, `route_after_validation`, and the per-turn driver
  `BotSession.process_message` of `backend/bot_integration.py`),
* `backend/accident_report/rule_based/navigation_analyzer.py` — the
  navigation-impact analyzer (`NavigationImpactAnalyzer`).

Python strings are modelled as `String`/`List Char` (the inputs exercised by
the engine are Unicode text; character classes are modelled over the
characters the source mentions), Python dicts keyed by strings as ordered
association lists with Python's insert-keeps-position/overwrite-value
semantics, and Python's `(bool, value-or-error)` validation results as
`Except String PyVal`.  `date`/`time` question kinds delegate to the external
`dateutil` parser and are outside every claim; they are mapped to a parse
failure and no theorem below depends on them.
-/

namespace WoZ

/-- A Python runtime value as stored in the engine's `form_data` and produced
by the validator: strings, ints, floats (kept as their literal numeral, no
claim computes with them), booleans, `None`, the single-choice dict
`{"choice": c, "other": o}`, lists, and string-keyed dicts. -/
inductive PyVal where
  | vStr (s : String)
  | vInt (n : Int)
  | vFloat (numeral : String)
  | vBool (b : Bool)
  | vNone
  | vChoice (choice : String) (other : Option String)
  | vList (elems : List PyVal)
  | vDict (entries : List (String × PyVal))

/-- A question definition node (`q_def` dict of the JSON schema): `id`,
`type`, prompt text, options, the `other_specify` flag, nested `fields`
(group / repeat_group), and the optional `followup_if_yes` question. -/
inductive QDef where
  | mk (id : String) (qtype : String) (question : String)
       (options : List String) (otherSpecify : Bool)
       (fields : List QDef) (followup : Option QDef)

def QDef.id : QDef → String
  | .mk i _ _ _ _ _ _ => i

def QDef.qtype : QDef → String
  | .mk _ t _ _ _ _ _ => t

def QDef.question : QDef → String
  | .mk _ _ q _ _ _ _ => q

def QDef.options : QDef → List String
  | .mk _ _ _ o _ _ _ => o

def QDef.otherSpecify : QDef → Bool
  | .mk _ _ _ _ os _ _ => os

def QDef.fields : QDef → List QDef
  | .mk _ _ _ _ _ f _ => f

def QDef.followup : QDef → Option QDef
  | .mk _ _ _ _ _ _ fu => fu

/-! ## Character helpers (Python `str` methods at character level) -/

/-- Python whitespace for `strip`/`split` (the characters occurring in the
engine's inputs). -/
def isPySpace (c : Char) : Bool :=
  c = ' ' || c = '\t' || c = '\n' || c = '\r' || c = Char.ofNat 11 || c = Char.ofNat 12

/-- Python `str.lower` on one character (ASCII letters; every non-ASCII
character the source manipulates is case-less). -/
def pyLowerChar (c : Char) : Char :=
  if 'A' ≤ c ∧ c ≤ 'Z' then Char.ofNat (c.toNat + 32) else c

def pyLower (l : List Char) : List Char := l.map pyLowerChar

/-- Python `str.strip()`: drop leading and trailing whitespace. -/
def pyStrip (l : List Char) : List Char :=
  ((l.dropWhile isPySpace).reverse.dropWhile isPySpace).reverse

/-- Python `str.rstrip('.')`: drop trailing `'.'` characters. -/
def pyRstripDot (l : List Char) : List Char :=
  (l.reverse.dropWhile (fun c => c = '.')).reverse

/-- Python `str.isdigit()`: non-empty and all (ASCII) digits. -/
def pyIsDigit (l : List Char) : Bool :=
  !l.isEmpty && l.all Char.isDigit

/-- Numeric value of an all-digit string (Python `int(s)` on a digit string). -/
def digitsToNat (l : List Char) : Nat :=
  l.foldl (fun acc c => acc * 10 + (c.toNat - '0'.toNat)) 0

/-- Python `old in s` substring containment at character level. -/
def containsSub (hay needle : List Char) : Bool :=
  (List.range (hay.length + 1)).any (fun i => needle.isPrefixOf (hay.drop i))

/-- Python `str.replace(old, new)` with non-empty `old`: left-to-right,
non-overlapping.  Fuel-structured (the fuel is a second copy of the input,
consumed one cell per emitted position) so that concrete applications
reduce; with non-empty `old` the fuel never runs out. -/
def pyReplaceGo (old new : List Char) : List Char → List Char → List Char
  | _, [] => []
  | [], s => s
  | _ :: fuel, x :: xs =>
      if old.isPrefixOf (x :: xs) then new ++ pyReplaceGo old new fuel ((x :: xs).drop old.length)
      else x :: pyReplaceGo old new fuel xs

def pyReplace (s old new : List Char) : List Char :=
  if old.isEmpty then s else pyReplaceGo old new s s

/-! ## `_normalize_text` (validator.py)

```python
def _normalize_text(text: str) -> str:
    text = text.lower().strip()
    text = text.replace('–', '-').replace('—', '-').replace('−', '-')
    text = text.replace(''', "'").replace(''', "'").replace('"', '"').replace('"', '"')
    text = re.sub(r'\s*/\s*', '/', text)
    text = re.sub(r'\s*-\s*', '-', text)
    text = ' '.join(text.split())
    return text
```

The third line of the body is corrupted in the source file: its curly-quote
literals degraded to ASCII, so Python actually parses it as
`text.replace(<the 15-character string "comma space dquote squote dquote
rparen dot r e p l a c e lparen">, "'")` followed by two no-op `'"' -> '"'`
replaces (the first argument of the outermost textual `replace` opens a
triple-quoted string whose content runs up to the second textual
`replace(`'s `'''`).  The embedding reproduces the code as it executes. -/

def aposChar : Char := Char.ofNat 39

def dquoteChar : Char := Char.ofNat 34

/-- The 15-character first argument that line 107 of validator.py actually
passes to `str.replace` (the mojibake pattern): comma, space, double quote,
apostrophe, double quote, right parenthesis, dot, the letters of "replace",
left parenthesis. -/
def mojibakePattern : List Char :=
  [',', ' ', dquoteChar, aposChar, dquoteChar, ')', '.',
   'r', 'e', 'p', 'l', 'a', 'c', 'e', '(']

/-- `re.sub(r'\s*C\s*', C, text)` for a single non-space character `C`:
every whitespace run adjacent to `C` is deleted.  One pass with a pending
whitespace buffer; `prevWasC` records whether the last non-space character
emitted was `C` (its trailing whitespace is dropped by the greedy `\s*`). -/
def subAroundGo (c : Char) (prevWasC : Bool) (pending : List Char) : List Char → List Char
  | [] => if prevWasC then [] else pending.reverse
  | x :: xs =>
      if isPySpace x then subAroundGo c prevWasC (x :: pending) xs
      else if x = c then c :: subAroundGo c true [] xs
      else (if prevWasC then [] else pending.reverse) ++ x :: subAroundGo c false [] xs

def subAround (c : Char) (l : List Char) : List Char :=
  subAroundGo c false [] l

/-- Python `str.split()` (split on whitespace runs, no empty words). -/
def pyWordsGo (cur : List Char) : List Char → List (List Char)
  | [] => if cur.isEmpty then [] else [cur.reverse]
  | x :: xs =>
      if isPySpace x then
        if cur.isEmpty then pyWordsGo [] xs else cur.reverse :: pyWordsGo [] xs
      else pyWordsGo (x :: cur) xs

def pyWords (l : List Char) : List (List Char) := pyWordsGo [] l

/-- `' '.join(words)`. -/
def joinSp : List (List Char) → List Char
  | [] => []
  | [w] => w
  | w :: ws => w ++ ' ' :: joinSp ws

def enDash : Char := Char.ofNat 0x2013

def emDash : Char := Char.ofNat 0x2014

def minusSign : Char := Char.ofNat 0x2212

/-- `_normalize_text` on character lists. -/
def normalizeList (l : List Char) : List Char :=
  let t0 := pyStrip (pyLower l)
  let t1 := pyReplace (pyReplace (pyReplace t0 [enDash] ['-']) [emDash] ['-']) [minusSign] ['-']
  let t2 := pyReplace (pyReplace (pyReplace t1 mojibakePattern [aposChar])
              [dquoteChar] [dquoteChar]) [dquoteChar] [dquoteChar]
  let t3 := subAround '-' (subAround '/' t2)
  joinSp (pyWords t3)

/-- `_normalize_text` on strings. -/
def normalizeText (s : String) : String :=
  ⟨normalizeList s.data⟩

/-! ## The answer validator (`validator.py`) -/

/-- Ordered string-keyed dict insert: Python dicts keep the position of an
existing key (overwriting its value) and append new keys. -/
def insertKV {β : Type} (l : List (String × β)) (k : String) (v : β) : List (String × β) :=
  if l.any (fun p => p.1 = k) then l.map (fun p => if p.1 = k then (k, v) else p)
  else l ++ [(k, v)]

/-- `opts = {_normalize_text(o): o for o in q_def["options"]}` — ordered,
later duplicate normal forms overwrite the stored option. -/
def buildOpts (options : List String) : List (String × String) :=
  options.foldl (fun acc o => insertKV acc (normalizeText o) o) []

/-- `_parse_bool` (validator.py): membership of the lowered, stripped reply
in the truthy/falsy synonym sets. -/
def parseBool (s : String) : Except String PyVal :=
  let lowered : String := ⟨pyLower (pyStrip s.data)⟩
  if lowered ∈ ["yes", "y", "true", "t", "1"] then .ok (.vBool true)
  else if lowered ∈ ["no", "n", "false", "f", "0"] then .ok (.vBool false)
  else .error "expected yes/no or true/false"

/-- The word-number table of `_parse_number`. -/
def wordToNum : List (String × Nat) :=
  [("zero", 0), ("one", 1), ("two", 2), ("three", 3), ("four", 4), ("five", 5),
   ("six", 6), ("seven", 7), ("eight", 8), ("nine", 9), ("ten", 10),
   ("eleven", 11), ("twelve", 12), ("thirteen", 13), ("fourteen", 14), ("fifteen", 15),
   ("sixteen", 16), ("seventeen", 17), ("eighteen", 18), ("nineteen", 19), ("twenty", 20),
   ("thirty", 30), ("forty", 40), ("fifty", 50), ("sixty", 60), ("seventy", 70),
   ("eighty", 80), ("ninety", 90), ("hundred", 100)]

/-- `re.search(r'-?\d+(?:\.\d+)?', s)`: the leftmost signed integer with an
optional decimal part, returned as (negative?, integer digits, fractional
digits).  A `'-'` participates only when immediately followed by a digit. -/
def scanNumber : List Char → Option (Bool × List Char × Option (List Char))
  | [] => none
  | c :: cs =>
      if c.isDigit then
        let ints := c :: cs.takeWhile Char.isDigit
        let rest := cs.dropWhile Char.isDigit
        match rest with
        | '.' :: d :: _ =>
            if d.isDigit then some (false, ints, some ((rest.drop 1).takeWhile Char.isDigit))
            else some (false, ints, none)
        | _ => some (false, ints, none)
      else if c = '-' then
        match cs with
        | d :: ds =>
            if d.isDigit then
              let ints := d :: ds.takeWhile Char.isDigit
              let rest := ds.dropWhile Char.isDigit
              match rest with
              | '.' :: e :: _ =>
                  if e.isDigit then some (true, ints, some ((rest.drop 1).takeWhile Char.isDigit))
                  else some (true, ints, none)
              | _ => some (true, ints, none)
            else scanNumber cs
        | [] => none
      else scanNumber cs

/-- `float(s)` when `s` contains no digit at all: only the special words
`inf`/`infinity`/`nan` (optionally signed) parse; everything else raises. -/
def pyFloatNoDigits (s : List Char) : Except String PyVal :=
  let t := pyLower (pyStrip s)
  let core := match t with
    | '+' :: r => r
    | '-' :: r => r
    | r => r
  if core = "inf".data ∨ core = "infinity".data ∨ core = "nan".data then
    .ok (.vFloat ⟨t⟩)
  else
    .error ("could not convert string to float: " ++ ⟨[aposChar]⟩ ++ ⟨s⟩ ++ ⟨[aposChar]⟩)

/-- `_parse_number` (validator.py): word-number table, else the first
embedded signed numeral (int when it has no decimal part), else Python's
`int`/`float` fallback on the whole string. -/
def parseNumber (s : String) : Except String PyVal :=
  let t : String := ⟨pyLower (pyStrip s.data)⟩
  match List.lookup t wordToNum with
  | some n => .ok (.vInt n)
  | none =>
      match scanNumber t.data with
      | some (neg, ints, none) =>
          .ok (.vInt (if neg then -(digitsToNat ints : Int) else (digitsToNat ints : Int)))
      | some (neg, ints, some frac) =>
          .ok (.vFloat ⟨(if neg then ['-'] else []) ++ ints ++ '.' :: frac⟩)
      | none => pyFloatNoDigits t.data

/-- `text`/`multiline_text` rule of `validate_answer`: strip; blank is valid
only when the prompt ends with "(optional)". -/
def parseText (q : QDef) (s : String) : Except String PyVal :=
  let v := pyStrip s.data
  if v.isEmpty ∧ ¬ (("(optional)".data).isSuffixOf (pyLower q.question.data)) then
    .error "blank text"
  else .ok (.vStr ⟨v⟩)

/-- Split a multi-choice reply on `,`/`;` (`re.split(r",|;", s)`), strip the
parts, drop empties. -/
def splitParts (l : List Char) : List (List Char) :=
  let raw := l.foldr
    (fun c acc => if c = ',' ∨ c = ';' then [] :: acc
                  else match acc with
                       | cur :: rest => (c :: cur) :: rest
                       | [] => [[c]])
    [[]]
  (raw.map pyStrip).filter (fun p => !p.isEmpty)

/-- The bare "other" synonyms of `_parse_choice`. -/
def bareOtherWords : List String :=
  ["other", "else", "different", "something else", "misc", "miscellaneous"]

/-- The `NeedsSpecification` error text of `_parse_choice`. -/
def needsSpecificationError : String :=
  "Please specify what " ++ ⟨[aposChar]⟩ ++ "other" ++ ⟨[aposChar]⟩ ++
  " option you mean (e.g., " ++ ⟨[aposChar]⟩ ++ "4 vehicles" ++ ⟨[aposChar]⟩ ++
  " or " ++ ⟨[aposChar]⟩ ++ "other: heavy blizzard" ++ ⟨[aposChar]⟩ ++ ")"

/-- The compound "other" patterns of `_parse_choice`, applied in order to the
normalized token `key` (`re.search` with each of `^other\s+(.+)`,
`^(.+)\s+other$`, `^other:\s*(.+)`, `^other\s*-\s*(.+)`); the first pattern
whose captured group is non-empty after `strip()` wins.  `key` is an output
of `_normalize_text` and therefore newline-free, so `.`-excludes-newline is
immaterial; each candidate below is the stripped capture, and an empty
capture falls through to the next pattern exactly as in the source loop. -/
def compoundOtherSpec (key : List Char) : Option (List Char) :=
  let cand1 : Option (List Char) :=
    if ("other".data).isPrefixOf key ∧ (key.drop 5).head?.any isPySpace then
      some (pyStrip (key.drop 5))
    else none
  let cand2 : Option (List Char) :=
    let r := key.reverse
    if (("other".data).reverse).isPrefixOf r ∧ (r.drop 5).head?.any isPySpace then
      some (pyStrip ((r.drop 6).reverse))
    else none
  let cand3 : Option (List Char) :=
    if ("other:".data).isPrefixOf key then some (pyStrip (key.drop 6)) else none
  let cand4 : Option (List Char) :=
    match (key.drop 5).dropWhile isPySpace with
    | '-' :: rest =>
        if ("other".data).isPrefixOf key then some (pyStrip rest) else none
    | _ => none
  let firstNonEmpty : List (Option (List Char)) → Option (List Char) :=
    fun cs => cs.foldr (fun c acc => match c with
      | some spec => if spec.isEmpty then acc else some spec
      | none => acc) none
  firstNonEmpty [cand1, cand2, cand3, cand4]

/-- `_flexible_word_match` (validator.py): split both on runs of hyphens,
slashes and whitespace, and compare word sets. -/
def flexSplit (l : List Char) : List (List Char) :=
  pyWordsGo [] (l.map (fun c => if c = '-' ∨ c = '/' then ' ' else c))

def flexibleWordMatch (inputText optionText : List Char) : Bool :=
  let iw := flexSplit (pyLower inputText)
  let ow := flexSplit (pyLower optionText)
  iw.all (fun w => ow.contains w) && ow.all (fun w => iw.contains w)

/-- The fuzzy-fallback loop of `_parse_choice`: iterate `opts` in order and
return the first option value matching the "None" special case, substring
containment in either direction, or the flexible word match. -/
def fuzzyMatch (key : List Char) : List (String × String) → Option String
  | [] => none
  | (optionKey, optionValue) :: rest =>
      if normalizeText optionValue = "none" ∧ key = "none".data then some optionValue
      else if containsSub key optionKey.data || containsSub optionKey.data key then some optionValue
      else if flexibleWordMatch key optionKey.data then some optionValue
      else fuzzyMatch key rest

/-- Result of resolving one part in the `_parse_choice` loop: either a value
returned early from the whole function, or a canonical option string
appended to the accumulator. -/
inductive PartResult where
  | earlyReturn (v : PyVal)
  | canonical (opt : String)
  | failureErr (msg : String)

/-- The body of the `for part in raw` loop of `_parse_choice` for one part
(the early `return`s of the source become `PartResult.earlyReturn`;
`raise ValueError` becomes `PartResult.failureErr`).  `canonicalSoFar` is the
accumulator, needed by the multi-choice unmatched-as-other early return. -/
def parseChoicePart (q : QDef) (multi : Bool) (canonicalSoFar : List String)
    (part : List Char) : PartResult :=
  let key : List Char := normalizeList (pyRstripDot part)
  -- other_specify block: compound patterns, bare-"other" synonyms
  let compound : Option PartResult :=
    if q.otherSpecify then
      match compoundOtherSpec key with
      | some spec => some (.earlyReturn (.vChoice "Other" (some ⟨spec⟩)))
      | none =>
          if (⟨key⟩ : String) ∈ bareOtherWords then
            some (.failureErr needsSpecificationError)
          else none
    else none
  match compound with
  | some r => r
  | none =>
    let unmatchedAsOther := q.otherSpecify
    let opts := buildOpts q.options
    match List.lookup (⟨key⟩ : String) opts with
    | some canonicalOpt => .canonical canonicalOpt
    | none =>
      -- numeric index / numeric other-value step
      let numeric : Option PartResult :=
        if pyIsDigit key then
          let idx : Int := (digitsToNat key : Int) - 1
          if 0 ≤ idx ∧ idx < (q.options.length : Int) then
            if q.otherSpecify ∧
               q.options.all (fun opt => pyIsDigit opt.data || opt == "Other") ∧
               ¬ (q.options.any (fun opt =>
                    pyIsDigit opt.data && digitsToNat opt.data == digitsToNat key)) then
              some (.earlyReturn (.vChoice "Other" (some ⟨part⟩)))
            else
              some (.canonical (q.options.getD idx.toNat ""))
          else if q.otherSpecify then
            some (.earlyReturn (.vChoice "Other" (some ⟨part⟩)))
          else none
        else none
      match numeric with
      | some r => r
      | none =>
        match fuzzyMatch key opts with
        | some optionValue => .canonical optionValue
        | none =>
            if unmatchedAsOther then
              if multi then
                .earlyReturn (.vDict
                  [("choices", .vList ((canonicalSoFar ++ [(⟨part⟩ : String)]).map .vStr)),
                   ("other", .vStr ⟨part⟩)])
              else .earlyReturn (.vChoice "Other" (some ⟨part⟩))
            else
              .failureErr (⟨[dquoteChar]⟩ ++ ⟨part⟩ ++ ⟨[dquoteChar]⟩ ++ " not a valid option")

/-- The `for part in raw` loop of `_parse_choice`. -/
def parseChoiceLoop (q : QDef) (multi : Bool) (canonical : List String) :
    List (List Char) → Except String (Sum PyVal (List String))
  | [] => .ok (.inr canonical)
  | part :: rest =>
      match parseChoicePart q multi canonical part with
      | .earlyReturn v => .ok (.inl v)
      | .failureErr msg => .error msg
      | .canonical opt => parseChoiceLoop q multi (canonical ++ [opt]) rest

/-- The final `return` processing of `_parse_choice`: an early return is
passed through; otherwise multi returns the canonical list and single the
first canonical string (or Python `None` when empty). -/
def parseChoiceFinish (multi : Bool) : Except String (Sum PyVal (List String)) →
    Except String PyVal
  | .error msg => .error msg
  | .ok (.inl v) => .ok v
  | .ok (.inr canonical) =>
      if multi then .ok (.vList (canonical.map .vStr))
      else match canonical with
           | c :: _ => .ok (.vStr c)
           | [] => .ok .vNone

/-- `_parse_choice` (validator.py). -/
def parseChoice (s : String) (q : QDef) (multi : Bool) : Except String PyVal :=
  parseChoiceFinish multi
    (parseChoiceLoop q multi [] (if multi then splitParts s.data else [pyStrip s.data]))

/-- `validate_answer` (validator.py): dispatch on the question kind.  The
`(is_valid, value-or-error-string)` pair of the source is modelled as
`Except String PyVal`.  `date`/`time` delegate to the external `dateutil`
parser and `group`/`repeat_group`/`table` to JSON decoding — none is touched
by any claim; they are mapped to an error so that every kind is total. -/
def validateAnswer (q : QDef) (reply : String) : Except String PyVal :=
  if q.qtype = "text" ∨ q.qtype = "multiline_text" then parseText q reply
  else if q.qtype = "number" then parseNumber reply
  else if q.qtype = "boolean" then parseBool reply
  else if q.qtype = "single_choice" then parseChoice reply q false
  else if q.qtype = "multiple_choice" then parseChoice reply q true
  else if q.qtype = "date" ∨ q.qtype = "time" then .error "unmodelled external parser"
  else if q.qtype = "group" ∨ q.qtype = "repeat_group" ∨ q.qtype = "table" then
    .error "unmodelled bulk JSON path"
  else .error ("Unknown q_type " ++ ⟨[dquoteChar]⟩ ++ q.qtype ++ ⟨[dquoteChar]⟩)

/-! ## The interview engine (`bot_naive.py`'s `FormWorkflow` driven per turn
by `bot_integration.py`'s `BotSession.process_message`)

`FormState` mirrors the mutable TypedDict of the source (the `messages`
transcript, navigation flags and `web_ui_enabled` carry no engine state and
are dropped; `process_message` hands the raw reply text straight to
`validate_input`). -/

structure FormState where
  current_question_id : String
  current_question_index : Nat
  form_data : List (String × PyVal)
  questions_completed : List String
  retry_count : Nat
  last_error : Option String
  form_complete : Bool
  validation_success : Bool
  current_group_question : Option QDef
  current_group_field_index : Nat
  group_data : List (String × PyVal)
  current_repeat_group_question : Option QDef
  current_repeat_instance : Nat
  current_repeat_field_index : Nat
  repeat_group_data : List (List (String × PyVal))
  current_instance_data : List (String × PyVal)

/-- A loaded questionnaire (`self.questions`). -/
structure Schema where
  questions : List QDef

/-- `get_followup_question_by_id` (bot_naive.py): search the main questions
for one whose follow-up has the given id; a `table` follow-up is converted
to `multiline_text` with an amended prompt. -/
instance : Inhabited QDef := ⟨.mk "" "" "" [] false [] none⟩

def getFollowupQuestionById (qs : List QDef) (qid : String) : Option QDef :=
  match qs.find? (fun q => q.followup.any (fun f => f.id == qid)) with
  | some q =>
      match q.followup with
      | some f =>
          if f.qtype = "table" then
            some (.mk f.id "multiline_text"
              (f.question ++ "\n(Please provide details separated by commas or semicolons)")
              f.options f.otherSpecify f.fields f.followup)
          else some f
      | none => none
  | none => none

/-- `get_question_by_id` (bot_naive.py): main questions first, then
follow-ups. -/
def getQuestionById (sch : Schema) (qid : String) : Option QDef :=
  match sch.questions.find? (fun q => q.id == qid) with
  | some q => some q
  | none => getFollowupQuestionById sch.questions qid

/-- `get_next_question` (bot_naive.py). -/
def getNextQuestion (sch : Schema) (currentIndex : Nat) : Option QDef :=
  sch.questions.get? (currentIndex + 1)

/-- `start_form` (bot_naive.py): the initial state (console output elided). -/
def startForm (sch : Schema) : FormState :=
  { current_question_id := (sch.questions.headI.id)
    current_question_index := 0
    form_data := []
    questions_completed := []
    retry_count := 0
    last_error := none
    form_complete := false
    validation_success := false
    current_group_question := none
    current_group_field_index := 0
    group_data := []
    current_repeat_group_question := none
    current_repeat_instance := 0
    current_repeat_field_index := 0
    repeat_group_data := []
    current_instance_data := [] }

/-- `_validate_current_question` (bot_naive.py): when positioned on a
repeat-group field it runs the Validator and either records the field into
`current_instance_data` (resetting the retry context) or increments
`retry_count` and stores `last_error`; every other position falls through to
the blanket success return (the source's own TODO comments mark the
group/regular-question validation as unimplemented). -/
def validateCurrentQuestion (s : FormState) (userInput : String) : FormState :=
  match s.current_repeat_group_question with
  | some rg =>
      match rg.fields.get? s.current_repeat_field_index with
      | some fld =>
          match validateAnswer fld userInput with
          | .ok v =>
              { s with current_instance_data := insertKV s.current_instance_data fld.id v
                       retry_count := 0, last_error := none, validation_success := true }
          | .error err =>
              { s with retry_count := s.retry_count + 1
                       last_error := some ("Invalid input: " ++ err ++ ". Please try again.")
                       validation_success := false }
      | none =>
          { s with retry_count := 0, last_error := none, validation_success := true }
  | none =>
      { s with retry_count := 0, last_error := none, validation_success := true }

/-- `advance_to_next` (bot_naive.py): move to the following main question,
clearing every composite context and the retry context; at the end of the
questionnaire the state is returned unchanged. -/
def advanceToNext (sch : Schema) (s : FormState) : FormState :=
  match getNextQuestion sch s.current_question_index with
  | some nq =>
      { s with current_question_id := nq.id
               current_question_index := s.current_question_index + 1
               current_group_question := none
               current_group_field_index := 0
               group_data := []
               current_repeat_group_question := none
               current_repeat_instance := 0
               current_repeat_field_index := 0
               repeat_group_data := []
               current_instance_data := []
               retry_count := 0, last_error := none, validation_success := false }
  | none => s

/-- `handle_followup` (bot_naive.py): after a boolean main answer of `True`
with a `followup_if_yes`, reposition onto the follow-up id (both the `table`
and the regular branch of the source produce this same state update). -/
def handleFollowup (sch : Schema) (s : FormState) : FormState :=
  match getQuestionById sch s.current_question_id with
  | none => s
  | some q =>
      if q.qtype = "boolean" then
        match List.lookup s.current_question_id s.form_data with
        | some (.vBool true) =>
            match q.followup with
            | some f =>
                { s with current_question_id := f.id
                         retry_count := 0, last_error := none, validation_success := false }
            | none => s
        | _ => s
      else s

/-- `handle_group_question` (bot_naive.py): advance to the group's next
field, or commit `group_data` under the group id and clear the group
context. -/
def handleGroupQuestion (s : FormState) : FormState :=
  match s.current_group_question with
  | none => s
  | some gq =>
      if s.current_group_field_index + 1 < gq.fields.length then
        { s with current_group_field_index := s.current_group_field_index + 1
                 retry_count := 0, last_error := none, validation_success := false }
      else
        { s with form_data := insertKV s.form_data s.current_question_id (.vDict s.group_data)
                 questions_completed :=
                   if s.questions_completed.contains s.current_question_id then
                     s.questions_completed
                   else s.questions_completed ++ [s.current_question_id]
                 current_group_question := none
                 current_group_field_index := 0
                 group_data := []
                 retry_count := 0, last_error := none, validation_success := true }

/-- The expected-instance-count computation inlined in `handle_repeat_group`
(bot_naive.py lines 1012–1022): the committed answer of the fixed gate
question `number_of_vehicles_involved`; default 2, recognising only the
choice strings/plain strings "1", "2", "3". -/
def expectedVehicles (v : Option PyVal) : Nat :=
  match v with
  | some (.vChoice c _) => if c = "1" then 1 else if c = "2" then 2 else if c = "3" then 3 else 2
  | some (.vStr st) => if st = "1" then 1 else if st = "2" then 2 else if st = "3" then 3 else 2
  | _ => 2

/-- `handle_repeat_group` (bot_naive.py): advance to the instance's next
field; or, on instance completion, append `current_instance_data`, recompute
the expected count, and either start the next instance or commit the
instance list under the current question id. -/
def handleRepeatGroup (s : FormState) : FormState :=
  match s.current_repeat_group_question with
  | none => s
  | some rg =>
      if s.current_repeat_field_index + 1 < rg.fields.length then
        { s with current_repeat_field_index := s.current_repeat_field_index + 1
                 retry_count := 0, last_error := none, validation_success := false }
      else
        let newRepeatGroupData := s.repeat_group_data ++ [s.current_instance_data]
        let expected := expectedVehicles (List.lookup "number_of_vehicles_involved" s.form_data)
        if newRepeatGroupData.length < expected then
          { s with repeat_group_data := newRepeatGroupData
                   current_instance_data := []
                   current_repeat_instance := s.current_repeat_instance + 1
                   current_repeat_field_index := 0
                   retry_count := 0, last_error := none, validation_success := false }
        else
          { s with form_data := insertKV s.form_data s.current_question_id
                     (.vList (newRepeatGroupData.map .vDict))
                   questions_completed :=
                     if s.questions_completed.contains s.current_question_id then
                       s.questions_completed
                     else s.questions_completed ++ [s.current_question_id]
                   current_repeat_group_question := none
                   current_repeat_instance := 0
                   current_repeat_field_index := 0
                   repeat_group_data := []
                   current_instance_data := []
                   retry_count := 0, last_error := none, validation_success := true }

/-- `complete_form` (bot_naive.py): the LangGraph node returns
`{"form_complete": True}`, merged into the session state. -/
def completeForm (s : FormState) : FormState :=
  { s with form_complete := true }

/-- `route_after_validation` (bot_naive.py). -/
def routeAfterValidation (sch : Schema) (s : FormState) : String :=
  if ¬ s.validation_success then "retry"
  else match s.current_repeat_group_question with
  | some rg =>
      if s.current_repeat_field_index + 1 < rg.fields.length then "repeat_group"
      else "repeat_group_complete"
  | none =>
  match s.current_group_question with
  | some gq =>
      if s.current_group_field_index + 1 < gq.fields.length then "group"
      else "group_complete"
  | none =>
  match getQuestionById sch s.current_question_id with
  | none => "complete"
  | some q =>
      let answeredTrue : Bool :=
        match List.lookup s.current_question_id s.form_data with
        | some (.vBool true) => true
        | _ => false
      if q.qtype = "boolean" ∧ answeredTrue ∧ q.followup.isSome then "followup"
      else if s.current_question_index + 1 ≥ sch.questions.length then "complete"
      else "next_question"

/-- One turn of the engine: `BotSession.process_message`
(bot_integration.py) runs `validate_input` on the raw reply, reads
`route_after_validation`, and dispatches to the matching handler
(`ask_question` renders only and is elided). -/
def submit (sch : Schema) (s : FormState) (reply : String) : FormState :=
  let s1 := validateCurrentQuestion s reply
  let route := routeAfterValidation sch s1
  if route = "retry" then s1
  else if route = "next_question" then advanceToNext sch s1
  else if route = "followup" then handleFollowup sch s1
  else if route = "group" then handleGroupQuestion s1
  else if route = "group_complete" then
    let g := handleGroupQuestion s1
    if g.current_question_index + 1 ≥ sch.questions.length then completeForm g
    else advanceToNext sch g
  else if route = "repeat_group" then handleRepeatGroup s1
  else if route = "repeat_group_complete" then
    let r := handleRepeatGroup s1
    if r.current_repeat_group_question.isSome then r
    else if r.current_question_index + 1 ≥ sch.questions.length then completeForm r
    else advanceToNext sch r
  else if route = "complete" then completeForm s1
  else s1

/-- Iterated turns. -/
def submitAll (sch : Schema) (s : FormState) (replies : List String) : FormState :=
  replies.foldl (fun st r => submit sch st r) s

/-! ## The navigation-impact analyzer (`navigation_analyzer.py`) -/

/-- The analyzer's result dict (initialised to strategy "continue" with
empty impact data). -/
structure NavResult where
  strategy : String
  reason : String
  affected_questions : List String
  requires_confirmation : Bool
  confirmation_message : String
  restart_from_question_id : Option String
  data_to_clear : List String

def NavResult.base : NavResult :=
  { strategy := "continue", reason := "", affected_questions := []
    requires_confirmation := false, confirmation_message := ""
    restart_from_question_id := none, data_to_clear := [] }

/-- `self.branching_questions`: ids of main questions with a
`followup_if_yes`. -/
def branchingQuestions (qs : List QDef) : List String :=
  qs.filterMap (fun q => if q.followup.isSome then some q.id else none)

/-- The count-question heuristic of `_build_dependency_map` and
`_affects_repeat_group_count`: the lowered id contains "number" and
("vehicle" or "participant"). -/
def heuristicCountId (qid : String) : Bool :=
  let l := pyLower qid.data
  containsSub l ("number".data) &&
    (containsSub l ("vehicle".data) || containsSub l ("participant".data))

/-- `self.question_dependencies` built by `_build_dependency_map`: for every
question, its follow-up id maps to it, and every count-heuristic question
maps every repeat group to itself (dict insertion order). -/
def questionDependencies (qs : List QDef) : List (String × String) :=
  qs.foldl
    (fun acc q =>
      let acc1 := match q.followup with
        | some f => insertKV acc f.id q.id
        | none => acc
      if heuristicCountId q.id then
        qs.foldl (fun a2 oq =>
          if oq.qtype = "repeat_group" then insertKV a2 oq.id q.id else a2) acc1
      else acc1)
    []

/-- The analyzer's `_get_question_by_id`: per main question in order, its own
id, then (for group/repeat_group) its fields, then its follow-up. -/
def navGetQuestionById (qs : List QDef) (qid : String) : Option QDef :=
  match qs with
  | [] => none
  | q :: rest =>
      if q.id = qid then some q
      else
        match (if q.qtype = "repeat_group" ∨ q.qtype = "group" then
                 q.fields.find? (fun f => f.id == qid)
               else none) with
        | some f => some f
        | none =>
            match q.followup with
            | some f => if f.id = qid then some f else navGetQuestionById rest qid
            | none => navGetQuestionById rest qid

/-- `_to_boolean` (navigation_analyzer.py).  Python's `bool(value)` on ints
is nonzero-ness; on a float it is nonzero-ness of the numeral (some digit is
not `'0'`). -/
def toBoolean (v : PyVal) : Bool :=
  match v with
  | .vBool b => b
  | .vStr s => (⟨pyLower s.data⟩ : String) ∈ ["yes", "true", "1", "y"]
  | .vInt n => n ≠ 0
  | .vFloat numeral => numeral.data.any (fun c => c.isDigit && c ≠ '0')
  | _ => false

/-- `_to_boolean` applied to `form_data.get(qid)` (absent key gives Python
`None`, coerced to `False`). -/
def toBooleanOpt (v : Option PyVal) : Bool :=
  match v with
  | some x => toBoolean x
  | none => false

/-- The first digit run of a string (`re.findall(r'\d+', s)[0]`). -/
def firstDigitRun : List Char → Option (List Char)
  | [] => none
  | c :: cs => if c.isDigit then some (c :: cs.takeWhile Char.isDigit) else firstDigitRun cs

/-- The one–ten word table of `_extract_count_from_value`, searched in dict
order by substring. -/
def navWordToNum : List (String × Nat) :=
  [("one", 1), ("two", 2), ("three", 3), ("four", 4), ("five", 5),
   ("six", 6), ("seven", 7), ("eight", 8), ("nine", 9), ("ten", 10)]

/-- `_extract_count_from_value` (navigation_analyzer.py).  Python's
`isinstance(value, int)` also catches booleans (`True` is `1`). -/
def extractCount (v : PyVal) : Int :=
  match v with
  | .vBool b => if b then 1 else 0
  | .vInt n => n
  | .vStr s =>
      match firstDigitRun s.data with
      | some run => (digitsToNat run : Int)
      | none =>
          match navWordToNum.find? (fun p => containsSub (pyLower s.data) p.1.data) with
          | some p => (p.2 : Int)
          | none => 0
  | _ => 0

def extractCountOpt (v : Option PyVal) : Int :=
  match v with
  | some x => extractCount x
  | none => 0

/-- The repeat-group ids gated by `qid` through `question_dependencies`
(the `affected_repeat_groups` computation). -/
def gatedRepeatGroups (qs : List QDef) (qid : String) : List String :=
  (qs.filter (fun q =>
    q.qtype == "repeat_group" && List.lookup q.id (questionDependencies qs) == some qid)).map
    (fun q => q.id)

/-- `_affects_repeat_group_count`. -/
def affectsRepeatGroupCount (qs : List QDef) (qid : String) : Bool :=
  (qs.any (fun q =>
    q.qtype == "repeat_group" && List.lookup q.id (questionDependencies qs) == some qid)) ||
  heuristicCountId qid

/-- `_is_repeat_group_field_edit`. -/
def isRepeatGroupFieldEdit (qs : List QDef) (qid : String) : Bool :=
  qs.any (fun q => q.qtype == "repeat_group" && q.fields.any (fun f => f.id == qid))

/-- `_analyze_branching_question_edit`. -/
def analyzeBranchingQuestionEdit (qs : List QDef) (qid : String) (newValue : PyVal)
    (formData : List (String × PyVal)) (result : NavResult) : NavResult :=
  let oldBool := toBooleanOpt (List.lookup qid formData)
  let newBool := toBoolean newValue
  if oldBool = newBool then
    { result with strategy := "continue"
                  reason := "Branch unchanged for " ++ ⟨[aposChar]⟩ ++ qid ++ ⟨[aposChar]⟩ ++
                    " - continuing from current position" }
  else
    let followupId : Option String :=
      match navGetQuestionById qs qid with
      | some q => (q.followup.map QDef.id)
      | none => none
    match followupId with
    | some fid =>
        if newBool ∧ fid ≠ "" then
          { result with strategy := "restart_branch"
                        reason := "Changed to " ++ ⟨[aposChar]⟩ ++ "Yes" ++ ⟨[aposChar]⟩ ++
                          " for " ++ ⟨[aposChar]⟩ ++ qid ++ ⟨[aposChar]⟩ ++
                          " - will show followup question"
                        restart_from_question_id := some qid
                        affected_questions := [fid] }
        else if ¬ newBool ∧ fid ≠ "" then
          { result with strategy := "restart_branch"
                        reason := "Changed to " ++ ⟨[aposChar]⟩ ++ "No" ++ ⟨[aposChar]⟩ ++
                          " for " ++ ⟨[aposChar]⟩ ++ qid ++ ⟨[aposChar]⟩ ++
                          " - removing followup question"
                        restart_from_question_id := some qid
                        affected_questions := [fid]
                        data_to_clear := [fid] }
        else result
    | none => result

/-- `_analyze_repeat_group_count_edit`. -/
def analyzeRepeatGroupCountEdit (qs : List QDef) (qid : String) (newValue : PyVal)
    (formData : List (String × PyVal)) (result : NavResult) : NavResult :=
  let oldCount := extractCountOpt (List.lookup qid formData)
  let newCount := extractCount newValue
  if oldCount = newCount then
    { result with strategy := "continue"
                  reason := "Count unchanged for " ++ ⟨[aposChar]⟩ ++ qid ++ ⟨[aposChar]⟩ ++
                    " - continuing from current position" }
  else
    let affected := gatedRepeatGroups qs qid
    if affected.isEmpty then
      { result with strategy := "continue"
                    reason := "No repeat groups affected by " ++ ⟨[aposChar]⟩ ++ qid ++
                      ⟨[aposChar]⟩ ++ " edit" }
    else if newCount > oldCount then
      { result with strategy := "continue"
                    reason := "Increased count from " ++ toString oldCount ++ " to " ++
                      toString newCount ++ " - will collect additional data"
                    affected_questions := affected }
    else if newCount < oldCount then
      { result with strategy := "confirm_and_restart"
                    reason := "Decreased count from " ++ toString oldCount ++ " to " ++
                      toString newCount ++ " - some data will be lost"
                    requires_confirmation := true
                    confirmation_message :=
                      "You" ++ ⟨[aposChar]⟩ ++ "ve changed the number from " ++
                      toString oldCount ++ " to " ++ toString newCount ++
                      ". This will remove data for " ++ toString (oldCount - newCount) ++
                      " items. Are you sure you want to continue? (Type " ++ ⟨[aposChar]⟩ ++
                      "yes" ++ ⟨[aposChar]⟩ ++ " to confirm or " ++ ⟨[aposChar]⟩ ++ "no" ++
                      ⟨[aposChar]⟩ ++ " to cancel)"
                    affected_questions := affected
                    restart_from_question_id := some qid }
    else result

/-- `_analyze_repeat_group_field_edit`. -/
def analyzeRepeatGroupFieldEdit (qid : String) (result : NavResult) : NavResult :=
  { result with strategy := "continue"
                reason := "Updated field " ++ ⟨[aposChar]⟩ ++ qid ++ ⟨[aposChar]⟩ ++
                  " within repeat group - no dependencies affected" }

/-- `analyze_edit_impact` (navigation_analyzer.py): the dispatch over the
decision rules, in source priority order. -/
def analyzeEditImpact (qs : List QDef) (qid : String) (newValue : PyVal)
    (formData : List (String × PyVal)) : NavResult :=
  let result := NavResult.base
  match navGetQuestionById qs qid with
  | none => { result with strategy := "continue"
                          reason := "Question not found, continuing normally" }
  | some _ =>
      if (branchingQuestions qs).contains qid then
        analyzeBranchingQuestionEdit qs qid newValue formData result
      else if affectsRepeatGroupCount qs qid then
        analyzeRepeatGroupCountEdit qs qid newValue formData result
      else if isRepeatGroupFieldEdit qs qid then
        analyzeRepeatGroupFieldEdit qid result
      else
        { result with strategy := "continue"
                      reason := "Simple question edit for " ++ ⟨[aposChar]⟩ ++ qid ++
                        ⟨[aposChar]⟩ ++ " - no dependencies affected" }

/-! ## Concrete questions and schemas used by the claims -/

/-- The purely-numeric-options single choice of the spec's own example:
options `["1","2","3","Other"]` with `other_specify` set. -/
def numericOptionsQuestion : QDef :=
  .mk "number_of_vehicles_involved" "single_choice"
    "How many vehicles were involved?" ["1", "2", "3", "Other"] true [] none

/-- A single-choice question whose sole option's normalized form itself
matches the compound pattern `other <text>`. -/
def otherDamageQuestion : QDef :=
  .mk "damage_kind" "single_choice" "What kind of damage?" ["Other damage"] true [] none

/-- A single-choice question (no `other_specify`) whose options collide
after normalization. -/
def collidingOptionsQuestion : QDef :=
  .mk "letter" "single_choice" "Which letter?" ["A", "a"] false [] none

/-- A one-question schema with a plain `number` main question. -/
def speedSchema : Schema :=
  ⟨[.mk "speed" "number" "How fast were you going?" [] false [] none]⟩

/-- The input on which the corrupted quote-replacement line of
`_normalize_text` fires only on the second pass: the mojibake pattern split
by a double space, which whitespace collapsing joins. -/
def mojibakeProbe : String :=
  ⟨['a', ',', ' ', ' ', dquoteChar, aposChar, dquoteChar, ')', '.',
    'r', 'e', 'p', 'l', 'a', 'c', 'e', '(', 'b']⟩

/-- The vehicle-details repeat group used by the concrete C8/C2 states. -/
def vehicleRepeatGroup : QDef :=
  .mk "vehicle_details" "repeat_group" "Details for each vehicle" [] false
    [.mk "veh_type" "text" "Type, make, and model?" [] false [] none,
     .mk "veh_speed" "number" "Approximate speed?" [] false [] none] none

/-- A three-question schema: the count gate, the repeat group, a trailing
text question. -/
def vehicleSchema : Schema :=
  ⟨[numericOptionsQuestion, vehicleRepeatGroup,
    .mk "notes" "text" "Anything else?" [] false [] none]⟩

/-- A state positioned on the first field of the repeat group's first
instance, with the count gate answered `"2"`. -/
def inRepeatState : FormState :=
  { startForm vehicleSchema with
      current_question_id := "vehicle_details"
      current_question_index := 1
      form_data := [("number_of_vehicles_involved", .vStr "2")]
      questions_completed := ["number_of_vehicles_involved"]
      current_repeat_group_question := some vehicleRepeatGroup }

/-! ## Association-list lemmas -/

theorem lookup_eq_none_of_keys_ne {β : Type} {l : List (String × β)} {k : String}
    (h : ∀ p ∈ l, p.1 ≠ k) : List.lookup k l = none := by
  induction l with
  | nil => rfl
  | cons p rest ih =>
      obtain ⟨a, b⟩ := p
      have hk : a ≠ k := h (a, b) (List.mem_cons_self _ _)
      rw [List.lookup_cons]
      have hbeq : (k == a) = false := beq_eq_false_iff_ne.mpr (fun he => hk he.symm)
      rw [hbeq]
      exact ih (fun q hq => h q (List.mem_cons_of_mem _ hq))

theorem keys_ne_of_lookup_eq_none {β : Type} {l : List (String × β)} {k : String}
    (h : List.lookup k l = none) : ∀ p ∈ l, p.1 ≠ k := by
  induction l with
  | nil => intro p hp; cases hp
  | cons q rest ih =>
      obtain ⟨a, b⟩ := q
      rw [List.lookup_cons] at h
      rcases hbeq : (k == a) with _ | _
      · rw [hbeq] at h
        intro p hp
        rcases List.mem_cons.mp hp with hq | hrest
        · subst hq
          simp only [ne_eq]
          intro he
          exact absurd (he ▸ hbeq) (by simp)
        · exact ih h p hrest
      · rw [hbeq] at h; cases h

theorem insertKV_of_lookup_none {β : Type} {l : List (String × β)} {k : String} (v : β)
    (h : List.lookup k l = none) : insertKV l k v = l ++ [(k, v)] := by
  unfold insertKV
  have hne := keys_ne_of_lookup_eq_none h
  have : l.any (fun p => p.1 = k) = false := by
    rw [List.any_eq_false]
    intro p hp
    simp only [decide_eq_true_eq]
    exact hne p hp
  simp [this]

theorem lookup_append_self {β : Type} {l : List (String × β)} {k : String} (v : β)
    (h : List.lookup k l = none) : List.lookup k (l ++ [(k, v)]) = some v := by
  induction l with
  | nil => simp [List.lookup]
  | cons p rest ih =>
      obtain ⟨a, b⟩ := p
      rw [List.lookup_cons] at h
      rw [List.cons_append, List.lookup_cons]
      rcases hbeq : (k == a) with _ | _
      · rw [hbeq] at h
        exact ih h
      · rw [hbeq] at h; cases h

theorem lookup_insertKV_self {β : Type} {l : List (String × β)} {k : String} (v : β)
    (h : List.lookup k l = none) :
    List.lookup k (insertKV l k v) = some v := by
  rw [insertKV_of_lookup_none v h]
  exact lookup_append_self v h

/-! ## C4 -/

/-- C4: for a single-choice question with options `["1","2","3","Other"]` and
`other_specify` set, `validate` resolves `"4"` to `Choice{Other, "4"}`,
resolves `"2"` to the option `"2"`, fails on bare `"other"` with the
needs-specification error, and resolves `"other 5"` to
`Choice{Other, "5"}`. -/
theorem c4_numeric_other_resolution :
    validateAnswer numericOptionsQuestion "4" = .ok (.vChoice "Other" (some "4")) ∧
    validateAnswer numericOptionsQuestion "2" = .ok (.vStr "2") ∧
    validateAnswer numericOptionsQuestion "other" = .error needsSpecificationError ∧
    validateAnswer numericOptionsQuestion "other 5" = .ok (.vChoice "Other" (some "5")) :=
  ⟨rfl, rfl, rfl, rfl⟩

/-! ## C9 -/

/-- C9 (code bug): `_normalize_text` is not idempotent.  Its corrupted
quote-replacement line replaces the 15-character mojibake pattern with an
apostrophe; on `mojibakeProbe` the first pass only collapses the double
space, creating the pattern, and the second pass then rewrites it. -/
theorem c9_normalize_not_idempotent :
    normalizeText mojibakeProbe = ⟨['a', ',', ' ', dquoteChar, aposChar, dquoteChar, ')', '.',
      'r', 'e', 'p', 'l', 'a', 'c', 'e', '(', 'b']⟩ ∧
    normalizeText (normalizeText mojibakeProbe) = ⟨['a', aposChar, 'b']⟩ ∧
    normalizeText (normalizeText mojibakeProbe) ≠ normalizeText mojibakeProbe :=
  ⟨rfl, rfl, by decide⟩

/-! ## C1 -/

/-- C1 (code bug): on a plain `number` main question the engine's
`_validate_current_question` never calls the Validator: the reply `"abc"`,
which `validate_answer` rejects, is accepted (`validation_success` true,
`retry_count` 0, no `last_error`) and the one-question form completes. -/
theorem c1_validator_bypassed_on_plain_question :
    validateAnswer (.mk "speed" "number" "How fast were you going?" [] false [] none) "abc"
      = .error ("could not convert string to float: " ++ ⟨[aposChar]⟩ ++ "abc" ++ ⟨[aposChar]⟩) ∧
    (submit speedSchema (startForm speedSchema) "abc").retry_count = 0 ∧
    (submit speedSchema (startForm speedSchema) "abc").validation_success = true ∧
    (submit speedSchema (startForm speedSchema) "abc").last_error = none ∧
    (submit speedSchema (startForm speedSchema) "abc").form_complete = true :=
  ⟨rfl, rfl, rfl, rfl, rfl⟩

/-! ## C10 -/

theorem containsSub_nil (hay : List Char) : containsSub hay [] = true := by
  unfold containsSub
  rw [List.any_eq_true]
  refine ⟨0, by simp, ?_⟩
  rw [List.drop_zero]
  cases hay <;> rfl

theorem fuzzy_first_empty (o0 : String) (rest : List (String × String)) :
    fuzzyMatch [] ((normalizeText o0, o0) :: rest) = some o0 := by
  simp only [fuzzyMatch]
  rw [if_neg (fun h => by simpa using h.2)]
  rw [containsSub_nil]
  simp

theorem foldl_insertKV_eq_append (options : List String) (acc : List (String × String))
    (hacc : ∀ o ∈ options, ∀ p ∈ acc, p.1 ≠ normalizeText o)
    (hnodup : (options.map normalizeText).Nodup) :
    options.foldl (fun a o => insertKV a (normalizeText o) o) acc
      = acc ++ options.map (fun o => (normalizeText o, o)) := by
  induction options generalizing acc with
  | nil => simp
  | cons o rest ih =>
      have h1 : insertKV acc (normalizeText o) o = acc ++ [(normalizeText o, o)] := by
        apply insertKV_of_lookup_none
        apply lookup_eq_none_of_keys_ne
        intro p hp
        exact hacc o (List.mem_cons_self _ _) p hp
      simp only [List.foldl_cons, h1]
      rw [ih]
      · simp
      · intro o' ho' p hp
        rcases List.mem_append.mp hp with h | h
        · exact hacc o' (List.mem_cons_of_mem _ ho') p h
        · simp only [List.mem_singleton] at h
          subst h
          simp only [ne_eq]
          intro he
          have hmem : normalizeText o ∈ rest.map normalizeText := by
            rw [he]
            exact List.mem_map_of_mem _ ho'
          rw [List.map_cons] at hnodup
          exact (List.nodup_cons.mp hnodup).1 hmem
      · rw [List.map_cons] at hnodup
        exact (List.nodup_cons.mp hnodup).2

theorem buildOpts_of_nodup (options : List String)
    (hnodup : (options.map normalizeText).Nodup) :
    buildOpts options = options.map (fun o => (normalizeText o, o)) := by
  unfold buildOpts
  rw [foldl_insertKV_eq_append options [] (by intro _ _ p hp; cases hp) hnodup]
  simp

theorem parseChoicePart_noOther_empty (i qt : String) (o0 : String) (rest : List String)
    (hnodup : ((o0 :: rest).map normalizeText).Nodup)
    (hne : ∀ o ∈ o0 :: rest, normalizeText o ≠ "") :
    parseChoicePart (.mk i "single_choice" qt (o0 :: rest) false [] none) false [] []
      = .canonical o0 := by
  have hopts : buildOpts (o0 :: rest) = (o0 :: rest).map (fun o => (normalizeText o, o)) :=
    buildOpts_of_nodup _ hnodup
  have hkey : normalizeList (pyRstripDot []) = ([] : List Char) := rfl
  have hlookup : List.lookup (⟨([] : List Char)⟩ : String) (buildOpts (o0 :: rest)) = none := by
    rw [hopts]
    apply lookup_eq_none_of_keys_ne
    intro p hp
    simp only [List.mem_map] at hp
    obtain ⟨o, ho, rfl⟩ := hp
    exact hne o ho
  have hfuzzy : fuzzyMatch [] (buildOpts (o0 :: rest)) = some o0 := by
    rw [hopts, List.map_cons]
    exact fuzzy_first_empty o0 _
  have hdig : pyIsDigit ([] : List Char) = false := rfl
  simp only [parseChoicePart, QDef.otherSpecify, QDef.options, hkey, hlookup, hfuzzy, hdig]
  simp

/-- C10 counterexample: for the single-choice question with options
`["A","a"]` (no `other_specify`), the empty reply returns `"a"` — the later
option that overwrote the shared normalized key — not the question's first
option `"A"`. -/
theorem c10_counterexample_colliding_options :
    validateAnswer collidingOptionsQuestion "" = .ok (.vStr "a") ∧ "a" ≠ "A" :=
  ⟨rfl, by decide⟩

/-- C10 (amended): for every single-choice question without `other_specify`
whose options have pairwise-distinct, non-empty normalized forms, an empty or
whitespace-only reply validates successfully and returns the question's first
option (the empty normalized token is a substring of every normalized
option, so the fuzzy containment rule matches the first option). -/
theorem c10_blank_reply_first_option (i qt : String) (o0 : String) (rest : List String)
    (reply : String)
    (hnodup : ((o0 :: rest).map normalizeText).Nodup)
    (hne : ∀ o ∈ o0 :: rest, normalizeText o ≠ "")
    (hblank : pyStrip reply.data = []) :
    validateAnswer (.mk i "single_choice" qt (o0 :: rest) false [] none) reply
      = .ok (.vStr o0) := by
  have h0 : validateAnswer (.mk i "single_choice" qt (o0 :: rest) false [] none) reply
      = parseChoice reply (.mk i "single_choice" qt (o0 :: rest) false [] none) false := rfl
  rw [h0]
  simp only [parseChoice, hblank]
  simp only [parseChoiceLoop, parseChoicePart_noOther_empty i qt o0 rest hnodup hne]
  simp [parseChoiceLoop, parseChoiceFinish]

/-- C10 witness: the amended theorem applied to options `["Yes","No"]` and a
whitespace-only reply. -/
theorem c10_blank_reply_first_option_witness :
    validateAnswer (.mk "q1" "single_choice" "Continue?" ["Yes", "No"] false [] none) "  "
      = .ok (.vStr "Yes") :=
  c10_blank_reply_first_option "q1" "Continue?" "Yes" ["No"] "  "
    (by decide) (by decide) rfl

/-! ## C7 -/

/-- C7 counterexample: with `other_specify` set and options `["Other damage"]`,
the input `"Other damage"` — whose normalized form exactly equals the
normalized option — is resolved by the compound pattern `other <text>` to
`Choice{Other, "damage"}`, not to the option: the compound-other step runs
before the exact-normalized-match step. -/
theorem c7_counterexample_compound_beats_exact :
    validateAnswer otherDamageQuestion "Other damage" = .ok (.vChoice "Other" (some "damage")) ∧
    validateAnswer otherDamageQuestion "Other damage" ≠ .ok (.vStr "Other damage") := by
  refine ⟨rfl, ?_⟩
  intro h
  have h1 : validateAnswer otherDamageQuestion "Other damage"
      = .ok (.vChoice "Other" (some "damage")) := rfl
  rw [h1] at h
  simp at h

/-- C7 (amended): in choice resolution the compound-other step precedes the
exact-normalized-match step: for every single-choice question with
`other_specify` set, a token matching one of the compound patterns
`other <text>`, `<text> other`, `other: <text>`, `other - <text>` (with
non-empty text) resolves to `Choice{Other, text}`, even when the token's
normalized form exactly equals a normalized option. -/
theorem c7_compound_precedes_exact (i qt : String) (options : List String) (s : String)
    (spec : List Char) (opt : String)
    (hcomp : compoundOtherSpec (normalizeList (pyRstripDot (pyStrip s.data))) = some spec)
    (_hexact : List.lookup (⟨normalizeList (pyRstripDot (pyStrip s.data))⟩ : String)
        (buildOpts options) = some opt) :
    validateAnswer (.mk i "single_choice" qt options true [] none) s
      = .ok (.vChoice "Other" (some ⟨spec⟩)) := by
  have hpart : parseChoicePart (.mk i "single_choice" qt options true [] none) false []
      (pyStrip s.data) = .earlyReturn (.vChoice "Other" (some ⟨spec⟩)) := by
    simp only [parseChoicePart, QDef.otherSpecify, hcomp]
    simp
  simp only [validateAnswer, QDef.qtype]
  rw [if_neg (by decide), if_neg (by decide), if_neg (by decide), if_pos trivial]
  simp only [parseChoice, Bool.false_eq_true, if_false, ite_false, parseChoiceLoop, hpart]
  simp [parseChoiceFinish]

/-- C7 witness: the amended theorem applied to the `["Other damage"]`
question and the token `"Other damage"`. -/
theorem c7_compound_precedes_exact_witness :
    validateAnswer (.mk "damage_kind" "single_choice" "What kind of damage?"
        ["Other damage"] true [] none) "Other damage"
      = .ok (.vChoice "Other" (some "damage")) :=
  c7_compound_precedes_exact "damage_kind" "What kind of damage?" ["Other damage"]
    "Other damage" "damage".data "Other damage" rfl rfl

/-! ## C3 -/

/-- C3 counterexample: the engine's expected-instance-count computation maps
the Choice answer `{choice:"4"}` — an all-digit choice string — to the
default 2, not 4, and the Choice `{other:"5 vehicles"}` to 2, not 5 (no
digit-run extraction happens, and no value is ever treated as unknown). -/
theorem c3_counterexample_expected_count :
    expectedVehicles (some (.vChoice "4" none)) = 2 ∧ (2 : Nat) ≠ 4 ∧
    expectedVehicles (some (.vChoice "Other" (some "5 vehicles"))) = 2 ∧ (2 : Nat) ≠ 5 :=
  ⟨rfl, by decide, rfl, by decide⟩

/-- C3 (amended): when a repeat-group instance completes, the engine
recomputes the expected count from the committed answer of the fixed gate
question `number_of_vehicles_involved`: a Choice whose choice string is
`"1"`, `"2"` or `"3"` yields that number, any other Choice yields the
default 2, a plain string `"1"`/`"2"`/`"3"` yields that number, and any
other or missing value also yields the default 2 (the count is never
unknown); the instance list is committed exactly when its length reaches
this expected count. -/
theorem c3_expected_count_characterisation :
    (∀ o, expectedVehicles (some (.vChoice "1" o)) = 1 ∧
          expectedVehicles (some (.vChoice "2" o)) = 2 ∧
          expectedVehicles (some (.vChoice "3" o)) = 3) ∧
    (∀ c o, c ≠ "1" → c ≠ "2" → c ≠ "3" → expectedVehicles (some (.vChoice c o)) = 2) ∧
    (expectedVehicles (some (.vStr "1")) = 1 ∧
     expectedVehicles (some (.vStr "2")) = 2 ∧
     expectedVehicles (some (.vStr "3")) = 3) ∧
    (∀ st, st ≠ "1" → st ≠ "2" → st ≠ "3" → expectedVehicles (some (.vStr st)) = 2) ∧
    (expectedVehicles none = 2 ∧
     (∀ b, expectedVehicles (some (.vBool b)) = 2) ∧
     (∀ n, expectedVehicles (some (.vInt n)) = 2) ∧
     (∀ f, expectedVehicles (some (.vFloat f)) = 2) ∧
     (∀ l, expectedVehicles (some (.vList l)) = 2) ∧
     (∀ d, expectedVehicles (some (.vDict d)) = 2) ∧
     expectedVehicles (some .vNone) = 2) ∧
    (∀ st rg, st.current_repeat_group_question = some rg →
       rg.fields.length ≤ st.current_repeat_field_index + 1 →
       ((handleRepeatGroup st).current_repeat_group_question = none ↔
         expectedVehicles (List.lookup "number_of_vehicles_involved" st.form_data)
           ≤ st.repeat_group_data.length + 1)) := by
  refine ⟨?_, ?_, ⟨rfl, rfl, rfl⟩, ?_, ⟨rfl, fun b => rfl, fun n => rfl, fun f => rfl,
    fun l => rfl, fun d => rfl, rfl⟩, ?_⟩
  · intro o
    exact ⟨rfl, rfl, rfl⟩
  · intro c o h1 h2 h3
    simp [expectedVehicles, h1, h2, h3]
  · intro st' h1 h2 h3
    simp [expectedVehicles, h1, h2, h3]
  · intro st rg hrg hlast
    have hnotlt : ¬ (st.current_repeat_field_index + 1 < rg.fields.length) := by omega
    simp only [handleRepeatGroup, hrg, if_neg hnotlt]
    constructor
    · intro hc
      by_contra hgt
      have hlt : st.repeat_group_data.length + 1
          < expectedVehicles (List.lookup "number_of_vehicles_involved" st.form_data) := by
        omega
      rw [if_pos (by simpa using hlt)] at hc
      simp [hrg] at hc
    · intro hle
      have hnotlt2 : ¬ ((st.repeat_group_data ++ [st.current_instance_data]).length
          < expectedVehicles (List.lookup "number_of_vehicles_involved" st.form_data)) := by
        simp
        omega
      rw [if_neg hnotlt2]

/-- C3 witness: the amended characterisation applied at a state completing
the second instance with gate answer `Choice{choice:"2"}`. -/
theorem c3_expected_count_characterisation_witness :
    expectedVehicles (some (.vChoice "2" (some "x"))) = 2 ∧
    expectedVehicles (some (.vStr "nine")) = 2 :=
  ⟨(c3_expected_count_characterisation.1 (some "x")).2.1,
   c3_expected_count_characterisation.2.2.2.1 "nine"
     (by decide) (by decide) (by decide)⟩

/-! ## C5 -/

/-- C5: for every question carrying a `followup_if_yes`, `analyze_edit_impact`
coerces the old and new values to boolean; equal booleans yield `continue`,
and differing booleans yield `restart_branch` with `restart_from` the edited
question id, `affected` exactly the follow-up id, and `data_to_clear` exactly
the follow-up id when the new boolean is false (empty when it is true). -/
theorem c5_branching_edit (qs : List QDef) (qid : String) (q f : QDef) (newValue : PyVal)
    (formData : List (String × PyVal))
    (hget : navGetQuestionById qs qid = some q)
    (hfu : q.followup = some f)
    (hfid : f.id ≠ "")
    (hbr : (branchingQuestions qs).contains qid = true) :
    (toBooleanOpt (List.lookup qid formData) = toBoolean newValue →
      (analyzeEditImpact qs qid newValue formData).strategy = "continue") ∧
    (toBooleanOpt (List.lookup qid formData) ≠ toBoolean newValue →
      (analyzeEditImpact qs qid newValue formData).strategy = "restart_branch" ∧
      (analyzeEditImpact qs qid newValue formData).restart_from_question_id = some qid ∧
      (analyzeEditImpact qs qid newValue formData).affected_questions = [f.id] ∧
      (analyzeEditImpact qs qid newValue formData).data_to_clear
        = (if toBoolean newValue then [] else [f.id])) := by
  have himp : analyzeEditImpact qs qid newValue formData
      = analyzeBranchingQuestionEdit qs qid newValue formData NavResult.base := by
    simp only [analyzeEditImpact, hget, hbr, if_true]
  rw [himp]
  by_cases hob : toBooleanOpt (List.lookup qid formData) = toBoolean newValue
  · refine ⟨fun _ => ?_, fun hne => absurd hob hne⟩
    simp only [analyzeBranchingQuestionEdit, if_pos hob]
  · refine ⟨fun he => absurd he hob, fun _ => ?_⟩
    simp only [analyzeBranchingQuestionEdit, if_neg hob, hget, hfu]
    rcases hnb : toBoolean newValue with _ | _
    · simp [hnb, hfid, NavResult.base]
    · simp [hnb, hfid, NavResult.base]

/-- C5 witness: editing the branching boolean `injured` from true to the
reply `"no"` restarts the branch and clears the follow-up. -/
theorem c5_branching_edit_witness :
    (analyzeEditImpact
        [.mk "injured" "boolean" "Anyone injured?" [] false []
            (some (.mk "injury_details" "table" "Who was injured?" [] false [] none))]
        "injured" (.vStr "no") [("injured", .vBool true)]).strategy = "restart_branch" ∧
    (analyzeEditImpact
        [.mk "injured" "boolean" "Anyone injured?" [] false []
            (some (.mk "injury_details" "table" "Who was injured?" [] false [] none))]
        "injured" (.vStr "no") [("injured", .vBool true)]).data_to_clear
      = ["injury_details"] := by
  have h := (c5_branching_edit
    [.mk "injured" "boolean" "Anyone injured?" [] false []
        (some (.mk "injury_details" "table" "Who was injured?" [] false [] none))]
    "injured"
    (.mk "injured" "boolean" "Anyone injured?" [] false []
        (some (.mk "injury_details" "table" "Who was injured?" [] false [] none)))
    (.mk "injury_details" "table" "Who was injured?" [] false [] none)
    (.vStr "no") [("injured", .vBool true)]
    rfl rfl (by decide) (by decide)).2 (by decide)
  exact ⟨h.1, by simpa using h.2.2.2⟩

/-! ## C6 -/

/-- C6: for every edit of a question that gates a repeat group (and is not a
branching question), `analyze_edit_impact` extracts an integer count from the
old and new values; an equal or increased count yields `continue`, while a
decreased count yields `confirm_and_restart` with a non-empty warning,
`restart_from` the edited question id, and the gated repeat-group ids in
`affected`. -/
theorem c6_count_gate_edit (qs : List QDef) (qid : String) (q0 : QDef) (newValue : PyVal)
    (formData : List (String × PyVal))
    (hget : navGetQuestionById qs qid = some q0)
    (hbr : (branchingQuestions qs).contains qid = false)
    (hgated : gatedRepeatGroups qs qid ≠ []) :
    (extractCount newValue = extractCountOpt (List.lookup qid formData) →
      (analyzeEditImpact qs qid newValue formData).strategy = "continue") ∧
    (extractCountOpt (List.lookup qid formData) < extractCount newValue →
      (analyzeEditImpact qs qid newValue formData).strategy = "continue") ∧
    (extractCount newValue < extractCountOpt (List.lookup qid formData) →
      (analyzeEditImpact qs qid newValue formData).strategy = "confirm_and_restart" ∧
      (analyzeEditImpact qs qid newValue formData).confirmation_message ≠ "" ∧
      (analyzeEditImpact qs qid newValue formData).restart_from_question_id = some qid ∧
      (analyzeEditImpact qs qid newValue formData).affected_questions
        = gatedRepeatGroups qs qid) := by
  have haff : affectsRepeatGroupCount qs qid = true := by
    have hfilter : (qs.filter (fun q =>
        q.qtype == "repeat_group" &&
          List.lookup q.id (questionDependencies qs) == some qid)) ≠ [] := by
      intro h
      apply hgated
      unfold gatedRepeatGroups
      rw [h]
      rfl
    rcases List.exists_mem_of_ne_nil _ hfilter with ⟨q', hq'⟩
    have hmf := List.mem_filter.mp hq'
    unfold affectsRepeatGroupCount
    rw [Bool.or_eq_true, List.any_eq_true]
    exact Or.inl ⟨q', hmf.1, hmf.2⟩
  have himp : analyzeEditImpact qs qid newValue formData
      = analyzeRepeatGroupCountEdit qs qid newValue formData NavResult.base := by
    simp only [analyzeEditImpact, hget, hbr, haff]
    simp
  rw [himp]
  have hempty : (gatedRepeatGroups qs qid).isEmpty = false := by
    rcases h : gatedRepeatGroups qs qid with _ | _
    · exact absurd h hgated
    · rfl
  refine ⟨fun heq => ?_, fun hlt => ?_, fun hgt => ?_⟩
  · simp only [analyzeRepeatGroupCountEdit, if_pos heq.symm]
  · simp only [analyzeRepeatGroupCountEdit, if_neg (by omega : ¬ extractCountOpt
      (List.lookup qid formData) = extractCount newValue), hempty]
    rw [if_neg (by simp), if_pos (by omega)]
  · simp only [analyzeRepeatGroupCountEdit, if_neg (by omega : ¬ extractCountOpt
      (List.lookup qid formData) = extractCount newValue), hempty]
    rw [if_neg (by simp), if_neg (by omega), if_pos (by omega)]
    refine ⟨rfl, ?_, rfl, rfl⟩
    intro h
    have hl := congrArg String.length h
    simp [String.length_append] at hl

/-- C6 witness: decreasing the count gate `number_of_vehicles_involved` from
3 to 1 yields `confirm_and_restart` with a non-empty warning naming the gated
repeat group. -/
theorem c6_count_gate_edit_witness :
    (analyzeEditImpact
        [.mk "number_of_vehicles_involved" "single_choice" "How many?"
            ["1", "2", "3", "Other"] true [] none,
         .mk "vehicle_details" "repeat_group" "Per vehicle" [] false [] none]
        "number_of_vehicles_involved" (.vStr "1")
        [("number_of_vehicles_involved", .vStr "3")]).strategy = "confirm_and_restart" ∧
    (analyzeEditImpact
        [.mk "number_of_vehicles_involved" "single_choice" "How many?"
            ["1", "2", "3", "Other"] true [] none,
         .mk "vehicle_details" "repeat_group" "Per vehicle" [] false [] none]
        "number_of_vehicles_involved" (.vStr "1")
        [("number_of_vehicles_involved", .vStr "3")]).affected_questions
      = ["vehicle_details"] := by
  have h := (c6_count_gate_edit
    [.mk "number_of_vehicles_involved" "single_choice" "How many?"
        ["1", "2", "3", "Other"] true [] none,
     .mk "vehicle_details" "repeat_group" "Per vehicle" [] false [] none]
    "number_of_vehicles_involved"
    (.mk "number_of_vehicles_involved" "single_choice" "How many?"
        ["1", "2", "3", "Other"] true [] none)
    (.vStr "1") [("number_of_vehicles_involved", .vStr "3")]
    rfl (by decide) (by decide)).2.2 (by decide)
  exact ⟨h.1, by rw [h.2.2.2]; rfl⟩

/-! ## Engine step-shape lemmas (shared by C8 and C2) -/

/-- Every run of `_validate_current_question` either succeeds with the retry
context reset, or is exactly the failure update: `retry_count` incremented,
`last_error` set, everything else untouched. -/
theorem validate_shape (s : FormState) (r : String) :
    ((validateCurrentQuestion s r).validation_success = true ∧
     (validateCurrentQuestion s r).retry_count = 0 ∧
     (validateCurrentQuestion s r).last_error = none) ∨
    (∃ msg, validateCurrentQuestion s r =
      { s with retry_count := s.retry_count + 1, last_error := some msg,
               validation_success := false }) := by
  rcases hrg : s.current_repeat_group_question with _ | rg
  · left
    simp only [validateCurrentQuestion, hrg]
    exact ⟨by trivial, by trivial, by trivial⟩
  · rcases hf : rg.fields.get? s.current_repeat_field_index with _ | fld
    · left
      simp only [validateCurrentQuestion, hrg, hf]
      exact ⟨by trivial, by trivial, by trivial⟩
    · rcases hv : validateAnswer fld r with e | v
      · right
        refine ⟨"Invalid input: " ++ e ++ ". Please try again.", ?_⟩
        simp only [validateCurrentQuestion, hrg, hf, hv]
      · left
        simp only [validateCurrentQuestion, hrg, hf, hv]
        exact ⟨by trivial, by trivial, by trivial⟩

/-- A failed validation routes to "retry". -/
theorem route_retry_of_fail (sch : Schema) (s : FormState)
    (h : s.validation_success = false) : routeAfterValidation sch s = "retry" := by
  simp [routeAfterValidation, h]

/-- `advance_to_next` resets the retry context whenever a next question
exists, and otherwise leaves the state unchanged. -/
theorem advance_retry (sch : Schema) (s : FormState) :
    ((advanceToNext sch s).retry_count = 0 ∧ (advanceToNext sch s).last_error = none) ∨
    advanceToNext sch s = s := by
  rcases hn : getNextQuestion sch s.current_question_index with _ | nq
  · right; simp only [advanceToNext, hn]
  · left; simp only [advanceToNext, hn]; exact ⟨by trivial, by trivial⟩

/-- `handle_followup` resets the retry context or leaves the state
unchanged. -/
theorem followup_retry (sch : Schema) (s : FormState) :
    ((handleFollowup sch s).retry_count = 0 ∧ (handleFollowup sch s).last_error = none) ∨
    handleFollowup sch s = s := by
  rcases hq : getQuestionById sch s.current_question_id with _ | q
  · right; simp only [handleFollowup, hq]
  · simp only [handleFollowup, hq]
    by_cases hb : q.qtype = "boolean"
    · rw [if_pos hb]
      rcases hl : List.lookup s.current_question_id s.form_data with _ | v
      · right; rfl
      · rcases v with ⟨s'⟩ | ⟨n⟩ | ⟨fl⟩ | ⟨b⟩ | _ | ⟨c, o⟩ | ⟨l⟩ | ⟨d⟩
        · right; rfl
        · right; rfl
        · right; rfl
        · rcases b with _ | _
          · right; rfl
          · rcases hfu : q.followup with _ | f
            · right; rfl
            · left; exact ⟨by trivial, by trivial⟩
        · right; rfl
        · right; rfl
        · right; rfl
        · right; rfl
    · rw [if_neg hb]; right; rfl

/-- `handle_group_question` resets the retry context whenever a group is
active, and otherwise leaves the state unchanged. -/
theorem group_retry (s : FormState) :
    ((handleGroupQuestion s).retry_count = 0 ∧ (handleGroupQuestion s).last_error = none) ∨
    handleGroupQuestion s = s := by
  rcases hg : s.current_group_question with _ | gq
  · right; simp only [handleGroupQuestion, hg]
  · left
    simp only [handleGroupQuestion, hg]
    by_cases hi : s.current_group_field_index + 1 < gq.fields.length
    · rw [if_pos hi]; exact ⟨by trivial, by trivial⟩
    · rw [if_neg hi]; exact ⟨by trivial, by trivial⟩

/-- `handle_repeat_group` resets the retry context whenever a repeat group is
active, and otherwise leaves the state unchanged. -/
theorem repeat_retry (s : FormState) :
    ((handleRepeatGroup s).retry_count = 0 ∧ (handleRepeatGroup s).last_error = none) ∨
    handleRepeatGroup s = s := by
  rcases hg : s.current_repeat_group_question with _ | rg
  · right; simp only [handleRepeatGroup, hg]
  · left
    simp only [handleRepeatGroup, hg]
    by_cases hi : s.current_repeat_field_index + 1 < rg.fields.length
    · rw [if_pos hi]; exact ⟨by trivial, by trivial⟩
    · rw [if_neg hi]
      by_cases hc : (s.repeat_group_data ++ [s.current_instance_data]).length
          < expectedVehicles (List.lookup "number_of_vehicles_involved" s.form_data)
      · rw [if_pos hc]; exact ⟨by trivial, by trivial⟩
      · rw [if_neg hc]; exact ⟨by trivial, by trivial⟩

/-- On a successful validation, the whole submit turn ends with
`retry_count = 0`. -/
theorem submit_retry_zero_of_success (sch : Schema) (s : FormState) (r : String)
    (_hsuccess : (validateCurrentQuestion s r).validation_success = true)
    (h0 : (validateCurrentQuestion s r).retry_count = 0) :
    (submit sch s r).retry_count = 0 := by
  simp only [submit]
  split
  · exact h0
  split
  · rcases advance_retry sch (validateCurrentQuestion s r) with ⟨hz, _⟩ | heq
    · exact hz
    · rw [heq]; exact h0
  split
  · rcases followup_retry sch (validateCurrentQuestion s r) with ⟨hz, _⟩ | heq
    · exact hz
    · rw [heq]; exact h0
  split
  · rcases group_retry (validateCurrentQuestion s r) with ⟨hz, _⟩ | heq
    · exact hz
    · rw [heq]; exact h0
  split
  · split
    · rcases group_retry (validateCurrentQuestion s r) with ⟨hz, _⟩ | heq
      · exact hz
      · rw [completeForm, heq]; exact h0
    · rcases advance_retry sch (handleGroupQuestion (validateCurrentQuestion s r)) with
        ⟨hz, _⟩ | heq
      · exact hz
      · rw [heq]
        rcases group_retry (validateCurrentQuestion s r) with ⟨hz, _⟩ | heq2
        · exact hz
        · rw [heq2]; exact h0
  split
  · rcases repeat_retry (validateCurrentQuestion s r) with ⟨hz, _⟩ | heq
    · exact hz
    · rw [heq]; exact h0
  split
  · split
    · rcases repeat_retry (validateCurrentQuestion s r) with ⟨hz, _⟩ | heq
      · exact hz
      · rw [heq]; exact h0
    split
    · rcases repeat_retry (validateCurrentQuestion s r) with ⟨hz, _⟩ | heq
      · exact hz
      · rw [completeForm, heq]; exact h0
    · rcases advance_retry sch (handleRepeatGroup (validateCurrentQuestion s r)) with
        ⟨hz, _⟩ | heq
      · exact hz
      · rw [heq]
        rcases repeat_retry (validateCurrentQuestion s r) with ⟨hz, _⟩ | heq2
        · exact hz
        · rw [heq2]; exact h0
  split
  · exact h0
  · exact h0

/-! ## C8 -/

/-- C8: `retry_count` is reset to zero (and `last_error` cleared) by every
transition that successfully records an answer or advances past a question —
advancing to the next main question, advancing or completing a group field,
and advancing or completing a repeat-group field or instance — so after a
submit turn a nonzero `retry_count` occurs only when that turn was a failed
validation that left the position and every answer accumulator unchanged. -/
theorem c8_retry_reset_invariant (sch : Schema) :
    (∀ s r, (submit sch s r).retry_count ≠ 0 →
      (submit sch s r).retry_count = s.retry_count + 1 ∧
      (submit sch s r).validation_success = false ∧
      (submit sch s r).current_question_id = s.current_question_id ∧
      (submit sch s r).current_question_index = s.current_question_index ∧
      (submit sch s r).form_data = s.form_data ∧
      (submit sch s r).questions_completed = s.questions_completed ∧
      (submit sch s r).current_group_question = s.current_group_question ∧
      (submit sch s r).current_group_field_index = s.current_group_field_index ∧
      (submit sch s r).group_data = s.group_data ∧
      (submit sch s r).current_repeat_group_question = s.current_repeat_group_question ∧
      (submit sch s r).current_repeat_instance = s.current_repeat_instance ∧
      (submit sch s r).current_repeat_field_index = s.current_repeat_field_index ∧
      (submit sch s r).repeat_group_data = s.repeat_group_data ∧
      (submit sch s r).current_instance_data = s.current_instance_data) ∧
    (∀ s, (getNextQuestion sch s.current_question_index).isSome →
      (advanceToNext sch s).retry_count = 0 ∧ (advanceToNext sch s).last_error = none) ∧
    (∀ s gq, s.current_group_question = some gq →
      (handleGroupQuestion s).retry_count = 0 ∧ (handleGroupQuestion s).last_error = none) ∧
    (∀ s rg, s.current_repeat_group_question = some rg →
      (handleRepeatGroup s).retry_count = 0 ∧ (handleRepeatGroup s).last_error = none) := by
  refine ⟨?_, ?_, ?_, ?_⟩
  · intro s r h
    rcases validate_shape s r with ⟨hs, h0, _⟩ | ⟨msg, heq⟩
    · exact absurd (submit_retry_zero_of_success sch s r hs h0) h
    · have hfail : (validateCurrentQuestion s r).validation_success = false := by
        rw [heq]
      have hroute := route_retry_of_fail sch (validateCurrentQuestion s r) hfail
      have hsub : submit sch s r = validateCurrentQuestion s r := by
        simp only [submit, hroute]
        simp
      rw [hsub, heq]
      exact ⟨rfl, rfl, rfl, rfl, rfl, rfl, rfl, rfl, rfl, rfl, rfl, rfl, rfl, rfl⟩
  · intro s hn
    rcases hn' : getNextQuestion sch s.current_question_index with _ | nq
    · rw [hn'] at hn; cases hn
    · simp only [advanceToNext, hn']
      exact ⟨by trivial, by trivial⟩
  · intro s gq hg
    simp only [handleGroupQuestion, hg]
    by_cases hi : s.current_group_field_index + 1 < gq.fields.length
    · rw [if_pos hi]; exact ⟨by trivial, by trivial⟩
    · rw [if_neg hi]; exact ⟨by trivial, by trivial⟩
  · intro s rg hg
    simp only [handleRepeatGroup, hg]
    by_cases hi : s.current_repeat_field_index + 1 < rg.fields.length
    · rw [if_pos hi]; exact ⟨by trivial, by trivial⟩
    · rw [if_neg hi]
      by_cases hc : (s.repeat_group_data ++ [s.current_instance_data]).length
          < expectedVehicles (List.lookup "number_of_vehicles_involved" s.form_data)
      · rw [if_pos hc]; exact ⟨by trivial, by trivial⟩
      · rw [if_neg hc]; exact ⟨by trivial, by trivial⟩

/-- C8 witness: an invalid reply to a repeat-group number field bumps
`retry_count` by one, and advancing from the invariant's concrete state
resets it to zero. -/
theorem c8_retry_reset_invariant_witness :
    (submit vehicleSchema
        { inRepeatState with current_repeat_field_index := 1 } "not a number").retry_count
      = { inRepeatState with current_repeat_field_index := 1 }.retry_count + 1 ∧
    (advanceToNext vehicleSchema inRepeatState).retry_count = 0 :=
  ⟨((c8_retry_reset_invariant vehicleSchema).1
      { inRepeatState with current_repeat_field_index := 1 } "not a number" (by decide)).1,
   ((c8_retry_reset_invariant vehicleSchema).2.1 inRepeatState (by decide)).1⟩

/-! ## C2 -/

/-- C2 (code bug): the end-to-end repeat-group collection never happens.  The
engine never sets `current_repeat_group_question` and never records plain
main answers, so in an interview over `vehicleSchema` the valid gate reply
`"2"` is accepted by the Validator yet discarded, the repeat-group question
is auto-accepted in a single turn without entering the instance loop, and
the form completes with no instance list committed under the group's id. -/
theorem c2_repeat_group_never_entered :
    validateAnswer numericOptionsQuestion "2" = .ok (.vStr "2") ∧
    (submit vehicleSchema (startForm vehicleSchema) "2").current_question_id
      = "vehicle_details" ∧
    List.lookup "number_of_vehicles_involved"
      (submit vehicleSchema (startForm vehicleSchema) "2").form_data = none ∧
    (submit vehicleSchema (startForm vehicleSchema) "2").current_repeat_group_question
      = none ∧
    (submitAll vehicleSchema (startForm vehicleSchema)
      ["2", "Sedan / Toyota / Camry"]).current_question_index = 2 ∧
    (submitAll vehicleSchema (startForm vehicleSchema)
      ["2", "Sedan / Toyota / Camry"]).current_repeat_group_question = none ∧
    List.lookup "vehicle_details"
      (submitAll vehicleSchema (startForm vehicleSchema)
        ["2", "Sedan / Toyota / Camry"]).form_data = none ∧
    (submitAll vehicleSchema (startForm vehicleSchema)
      ["2", "Sedan / Toyota / Camry", "nothing else"]).form_complete = true ∧
    List.lookup "vehicle_details"
      (submitAll vehicleSchema (startForm vehicleSchema)
        ["2", "Sedan / Toyota / Camry", "nothing else"]).form_data = none :=
  ⟨rfl, rfl, rfl, rfl, rfl, rfl, rfl, rfl, rfl⟩

end WoZ
